import Mathlib

/-!
Verification of the game-tracker repository layer
(`src/interfaces/repositories.go`).

The Go code is a data-access layer mapping the domain entities Player,
User, Library and Game to SQL statements over a `DbHandler`
(Execute / Query / QueryRow) and reconstructing entities from row
cursors.  We embed it shallowly:

* the backing store is a `DB` value: one ordered list of rows per table
  (`users`, `players`, `libraries`, `games`), a per-table id counter
  modelling the `RETURNING id` serial columns, and a list `failing` of
  statements on which the SQL engine reports an error (the driver passes
  engine errors through unchanged, so we model them as an oracle on the
  statement being run);
* a row cursor is a list of rows: `Next` then `Scan` on an empty cursor
  yields the scan error `Err.scanOnEmptyCursor` (database/sql's error for
  scanning with no current row); on a failed query the handler returns an
  empty cursor (`new(PostgresqlRow)`) together with the error, so `Next`
  on the error-path cursor is `false`;
* every repository operation becomes a function from its arguments and
  the `DB` to the tuple the Go function returns (Go returns a value and
  an error together, so we return pairs with `Option Err`), plus the
  updated `DB` for mutating operations.
-/

namespace GameTracker

/-- Bytes of a Go `[]uint8` payload (the `value` column of `games`). -/
abbrev Bytes := List Nat

/-! ## Domain entities (`domain.Player`, `usecases.User/Library/Game`) -/

/-- `domain.Player`. -/
structure Player where
  Id : Int
  Name : String
deriving Repr, DecidableEq

/-- `usecases.User`. -/
structure User where
  Id : Int
  Name : String
  Player : GameTracker.Player
  PersonalInfo : String
deriving Repr, DecidableEq

/-- `usecases.Game`. -/
structure Game where
  Id : Int
  LibraryId : Int
  Name : String
  Producer : String
  Value : Bytes
deriving Repr, DecidableEq

/-- `usecases.Library`. -/
structure Library where
  Id : Int
  User : GameTracker.User
  Games : List Game
deriving Repr, DecidableEq

/-- Go zero value `domain.Player{}`. -/
def playerZero : Player := ⟨0, ""⟩

/-- Go zero value `usecases.User{}`. -/
def userZero : User := ⟨0, "", playerZero, ""⟩

/-- Go zero value `usecases.Game{}`. -/
def gameZero : Game := ⟨0, 0, "", "", []⟩

/-- Go zero value `usecases.Library{}` (nil Games slice). -/
def libraryZero : Library := ⟨0, userZero, []⟩

/-! ## Table rows (schema of §6: users, players, libraries, games) -/

/-- A row of `players(id, player_name)`. -/
structure PlayerRow where
  id : Int
  player_name : String
deriving Repr, DecidableEq

/-- A row of `users(id, user_name, player_id, personal_info)`. -/
structure UserRow where
  id : Int
  user_name : String
  player_id : Int
  personal_info : String
deriving Repr, DecidableEq

/-- A row of `libraries(id, user_id)`. -/
structure LibraryRow where
  id : Int
  user_id : Int
deriving Repr, DecidableEq

/-- A row of `games(id, library_id, game_name, producer, value)`. -/
structure GameRow where
  id : Int
  library_id : Int
  game_name : String
  producer : String
  value : Bytes
deriving Repr, DecidableEq

/-- The parameterized SQL statements the repositories issue, one
constructor per statement text, carrying the bound arguments.  Used to
identify a statement to the engine-fault oracle. -/
inductive Stmt where
  | insertUser (userName : String) (playerId : Int) (personalInfo : String)
  | deleteUser (id : Int)
  | selectUserById (id : Int)
  | selectUserByName (userName : String)
  | updateUserInfo (info : String) (id : Int)
  | selectUserInfo (id : Int)
  | insertPlayer (playerName : String)
  | selectPlayerById (id : Int)
  | selectPlayerByName (playerName : String)
  | selectPlayerByIdAndName (id : Int) (playerName : String)
  | insertLibrary (userId : Int)
  | deleteLibrary (id : Int)
  | selectLibraryUserId (id : Int)
  | insertGame (libraryId : Int) (gameName : String) (producer : String) (value : Bytes)
  | deleteGame (id : Int)
  | selectGameById (id : Int)
  | selectGamesByLibrary (libraryId : Int)
deriving Repr, DecidableEq

/-- Errors a repository operation can return.  The constructors keep the
distinct origins apart so that theorems can tell a locally raised
validation error, database/sql's empty-cursor scan error, a normalized
not-found error (which this code never constructs), and a passthrough
engine error from each other. -/
inductive Err where
  /-- `fmt.Errorf(msg)` raised locally (the name/id validation in
  `DbUserRepo.Store`). -/
  | validation (msg : String)
  /-- database/sql's error for `Scan` when `Next` was not true: the
  single-row lookups call `row.Next()` without checking it and then
  `row.Scan(...)`, so on an empty cursor this is the error they return. -/
  | scanOnEmptyCursor
  /-- A normalized "no such entity" error.  The spec asks for it; the code
  under `src/` never constructs it. -/
  | notFound
  /-- An error reported by the SQL engine on the given statement and
  passed through unchanged by the driver. -/
  | engine (s : Stmt)
deriving Repr, DecidableEq

/-- The backing store reachable through the bound `DbHandler`s: the four
tables in row order (Postgres returns unordered sets, but for the
sequential inserts this layer performs the cursor yields insertion order
in practice, which is what the spec fixes), the serial counters feeding
`RETURNING id`, and the oracle `failing` listing statements on which the
engine errors (connectivity, constraint violation, ...). -/
structure DB where
  users : List UserRow
  players : List PlayerRow
  libraries : List LibraryRow
  games : List GameRow
  usersNextId : Int
  playersNextId : Int
  librariesNextId : Int
  gamesNextId : Int
  failing : List Stmt
deriving Repr, DecidableEq

/-- Whether the engine errors on statement `s`. -/
def DB.faulted (db : DB) (s : Stmt) : Bool := decide (s ∈ db.failing)

/-- `DbHandler.Query`: on an engine fault the handler returns an empty
cursor together with the error (the Postgres adapter returns
`new(PostgresqlRow)` and the error); otherwise the cursor holds `rows`
and the error is nil. -/
def DB.query {α : Type} (db : DB) (s : Stmt) (rows : List α) :
    List α × Option Err :=
  if db.faulted s then ([], some (Err.engine s)) else (rows, none)

/-! ## DbPlayerRepo -/

/-- `DbPlayerRepo.playerExisted`: queries
`SELECT player_name FROM players WHERE player_name=$1 LIMIT 1` and
returns `row.Next(), err` — the cursor is consumed and the boolean
returned even when the query errored. -/
def playerExisted (playerName : String) (db : DB) : Bool × Option Err :=
  let s := Stmt.selectPlayerByName playerName
  let q := db.query s ((db.players.filter (fun r => r.player_name == playerName)).take 1)
  (!q.1.isEmpty, q.2)

/-- `DbPlayerRepo.NameMatchesId`: queries
`SELECT * FROM players WHERE id=$1 AND player_name=$2 LIMIT 1` and
returns `row.Next(), err`. -/
def nameMatchesId (playerName : String) (id : Int) (db : DB) : Bool × Option Err :=
  let s := Stmt.selectPlayerByIdAndName id playerName
  let q := db.query s
    ((db.players.filter (fun r => r.id == id && r.player_name == playerName)).take 1)
  (!q.1.isEmpty, q.2)

/-- `DbPlayerRepo.Store`: checks `playerExisted(player.Name)`; on error
returns it; if absent, runs `INSERT INTO players (player_name) VALUES ($1)`
(the serial column assigns `playersNextId`); if present, returns nil
without touching the store. -/
def playerStore (player : Player) (db : DB) : Option Err × DB :=
  let e := playerExisted player.Name db
  match e.2 with
  | some err => (some err, db)
  | none =>
    if !e.1 then
      let s := Stmt.insertPlayer player.Name
      if db.faulted s then (some (Err.engine s), db)
      else
        (none, { db with
          players := db.players ++ [⟨db.playersNextId, player.Name⟩],
          playersNextId := db.playersNextId + 1 })
    else (none, db)

/-- `DbPlayerRepo.FindById`: queries
`SELECT player_name FROM players WHERE id = $1 LIMIT 1`; on query error
returns `(Player{}, err)`; then `row.Next()` (unchecked) and
`row.Scan(&name)` — the empty cursor yields the scan error; on success
returns `Player{Id: id, Name: name}`. -/
def playerFindById (id : Int) (db : DB) : Player × Option Err :=
  let s := Stmt.selectPlayerById id
  let q := db.query s ((db.players.filter (fun r => r.id == id)).take 1)
  match q.2 with
  | some err => (playerZero, some err)
  | none =>
    match q.1 with
    | [] => (playerZero, some Err.scanOnEmptyCursor)
    | r :: _ => (⟨id, r.player_name⟩, none)

/-! ## DbUserRepo -/

/-- `DbUserRepo.Store`: validates `NameMatchesId(user.Player.Name,
user.Player.Id)`; on error returns it; if no match, returns the
validation error `fmt.Errorf("Player name does not match Id")`; then
`INSERT INTO users ... RETURNING id`; then `playerRepo.Store(user.Player)`
and returns the captured id with that call's error. -/
def userStore (user : User) (db : DB) : Int × Option Err × DB :=
  let m := nameMatchesId user.Player.Name user.Player.Id db
  match m.2 with
  | some err => (0, some err, db)
  | none =>
    if !m.1 then (0, some (Err.validation "Player name does not match Id"), db)
    else
      let s := Stmt.insertUser user.Name user.Player.Id user.PersonalInfo
      if db.faulted s then (0, some (Err.engine s), db)
      else
        let id := db.usersNextId
        let db1 := { db with
          users := db.users ++ [⟨id, user.Name, user.Player.Id, user.PersonalInfo⟩],
          usersNextId := id + 1 }
        let p := playerStore user.Player db1
        (id, p.1, p.2)

/-- `DbUserRepo.Remove`: `DELETE FROM users WHERE id=$1`; the
`if err == sql.ErrNoRows {}` branch is empty, so the Execute error is
returned unchanged; deleting zero rows is not an error. -/
def userRemove (user : User) (db : DB) : Option Err × DB :=
  let s := Stmt.deleteUser user.Id
  if db.faulted s then (some (Err.engine s), db)
  else (none, { db with users := db.users.filter (fun r => !(r.id == user.Id)) })

/-- `DbUserRepo.FindById`: queries the user row (`LIMIT 1`); on query
error returns `(User{}, err)`; unchecked `Next` then `Scan` of
`user_name, player_id, personal_info` (empty cursor: scan error, zero
User); hydrates the Player via `DbPlayerRepo.FindById(playerId)`,
returning `(User{}, err)` on its error; otherwise assembles the User. -/
def userFindById (id : Int) (db : DB) : User × Option Err :=
  let s := Stmt.selectUserById id
  let q := db.query s ((db.users.filter (fun r => r.id == id)).take 1)
  match q.2 with
  | some err => (userZero, some err)
  | none =>
    match q.1 with
    | [] => (userZero, some Err.scanOnEmptyCursor)
    | r :: _ =>
      let p := playerFindById r.player_id db
      match p.2 with
      | some err => (userZero, some err)
      | none => (⟨id, r.user_name, p.1, r.personal_info⟩, none)

/-- `DbUserRepo.UserExisted`: queries
`SELECT user_name FROM users WHERE user_name=$1 LIMIT 1` and returns
`row.Next(), err` — again without guarding the cursor behind the error
check. -/
def userExisted (userName : String) (db : DB) : Bool × Option Err :=
  let s := Stmt.selectUserByName userName
  let q := db.query s ((db.users.filter (fun r => r.user_name == userName)).take 1)
  (!q.1.isEmpty, q.2)

/-- `DbUserRepo.StoreInfo`: `UPDATE users SET personal_info=$1 WHERE id=$2`. -/
def userStoreInfo (user : User) (info : String) (db : DB) : Option Err × DB :=
  let s := Stmt.updateUserInfo info user.Id
  if db.faulted s then (some (Err.engine s), db)
  else
    (none, { db with users := db.users.map (fun r => if r.id == user.Id then { r with personal_info := info } else r) })

/-- `DbUserRepo.LoadInfo`: `SELECT personal_info FROM users WHERE id=$1`
(no LIMIT); on query error returns `("", err)`; unchecked `Next` then
`Scan(&info)`, returning `info, err` — the empty cursor leaves `info` at
the zero string and yields the scan error. -/
def userLoadInfo (user : User) (db : DB) : String × Option Err :=
  let s := Stmt.selectUserInfo user.Id
  let q := db.query s (db.users.filter (fun r => r.id == user.Id))
  match q.2 with
  | some err => ("", some err)
  | none =>
    match q.1 with
    | [] => ("", some Err.scanOnEmptyCursor)
    | r :: _ => (r.personal_info, none)

/-! ## DbGameRepo -/

/-- Entity view of a `games` row, as `DbGameRepo.FindById` assembles it. -/
def GameRow.toGame (r : GameRow) : Game :=
  ⟨r.id, r.library_id, r.game_name, r.producer, r.value⟩

/-- `DbGameRepo.Store`: `INSERT INTO games ... RETURNING id`. -/
def gameStore (game : Game) (db : DB) : Int × Option Err × DB :=
  let s := Stmt.insertGame game.LibraryId game.Name game.Producer game.Value
  if db.faulted s then (0, some (Err.engine s), db)
  else
    (db.gamesNextId, none, { db with
      games := db.games ++ [⟨db.gamesNextId, game.LibraryId, game.Name, game.Producer, game.Value⟩],
      gamesNextId := db.gamesNextId + 1 })

/-- `DbGameRepo.Remove`: `DELETE FROM games WHERE id=$1`. -/
def gameRemove (game : Game) (db : DB) : Option Err × DB :=
  let s := Stmt.deleteGame game.Id
  if db.faulted s then (some (Err.engine s), db)
  else (none, { db with games := db.games.filter (fun r => !(r.id == game.Id)) })

/-- `DbGameRepo.FindById`: queries the game row (`LIMIT 1`); on query
error `(Game{}, err)`; unchecked `Next` then `Scan` of
`library_id, game_name, producer, value` (empty cursor: scan error, zero
Game); otherwise assembles the Game with `Id: id`. -/
def gameFindById (id : Int) (db : DB) : Game × Option Err :=
  let s := Stmt.selectGameById id
  let q := db.query s ((db.games.filter (fun r => r.id == id)).take 1)
  match q.2 with
  | some err => (gameZero, some err)
  | none =>
    match q.1 with
    | [] => (gameZero, some Err.scanOnEmptyCursor)
    | r :: _ => (⟨id, r.library_id, r.game_name, r.producer, r.value⟩, none)

/-! ## DbLibraryRepo -/

/-- `DbLibraryRepo.Store`: `INSERT INTO libraries (user_id) VALUES ($1)
RETURNING id`; no validation that the user exists. -/
def libraryStore (library : Library) (db : DB) : Int × Option Err × DB :=
  let s := Stmt.insertLibrary library.User.Id
  if db.faulted s then (0, some (Err.engine s), db)
  else
    (db.librariesNextId, none, { db with
      libraries := db.libraries ++ [⟨db.librariesNextId, library.User.Id⟩],
      librariesNextId := db.librariesNextId + 1 })

/-- `DbLibraryRepo.Remove`: `DELETE FROM libraries WHERE id=$1`; no
cascade to games. -/
def libraryRemove (library : Library) (db : DB) : Option Err × DB :=
  let s := Stmt.deleteLibrary library.Id
  if db.faulted s then (some (Err.engine s), db)
  else (none, { db with libraries := db.libraries.filter (fun r => !(r.id == library.Id)) })

/-- The `for row.Next() { ... }` loop of `DbLibraryRepo.FindById` over
the cursor of game ids: each iteration scans the id (a row is present,
so the scan succeeds), hydrates the Game via `DbGameRepo.FindById`,
returning the library built so far together with the error on failure,
and appends the Game to `library.Games`. -/
def libraryGamesLoop (db : DB) (lib : Library) : List Int → Library × Option Err
  | [] => (lib, none)
  | gameId :: rest =>
    let g := gameFindById gameId db
    match g.2 with
    | some err => (lib, some err)
    | none => libraryGamesLoop db { lib with Games := lib.Games ++ [g.1] } rest

/-- `DbLibraryRepo.FindById` from the point where `userId` has been
scanned (the code after `row.Scan(&userId)`): hydrates the User via
`DbUserRepo.FindById(userId)`, returning `(Library{}, err)` on its
error; builds `Library{Id: id, User: user}`; queries
`SELECT id FROM games WHERE library_id = $1`, returning the populated
library with the error if that query fails; then runs the hydration
loop. -/
def libraryFindWithUser (id : Int) (userId : Int) (db : DB) : Library × Option Err :=
  let u := userFindById userId db
  match u.2 with
  | some err => (libraryZero, some err)
  | none =>
    let lib : Library := ⟨id, u.1, []⟩
    let s := Stmt.selectGamesByLibrary id
    let q := db.query s ((db.games.filter (fun r => r.library_id == id)).map GameRow.id)
    match q.2 with
    | some err => (lib, some err)
    | none => libraryGamesLoop db lib q.1

/-- `DbLibraryRepo.FindById`: queries
`SELECT user_id FROM libraries WHERE id = $1 LIMIT 1`; on query error
`(Library{}, err)`; then `row.Next()` and `row.Scan(&userId)` with the
scan error DISCARDED — when no row matches, `userId` keeps its zero
value 0 and execution continues with the user hydration. -/
def libraryFindById (id : Int) (db : DB) : Library × Option Err :=
  let s := Stmt.selectLibraryUserId id
  let q := db.query s ((db.libraries.filter (fun r => r.id == id)).take 1)
  match q.2 with
  | some err => (libraryZero, some err)
  | none =>
    let userId : Int := match q.1 with
      | [] => 0
      | r :: _ => r.user_id
    libraryFindWithUser id userId db

/-! ## Concrete stores used by witnesses and counterexamples -/

/-- An empty store, serial counters at 1, healthy engine. -/
def dbEmpty : DB := ⟨[], [], [], [], 1, 1, 1, 1, []⟩

/-- A store seeded with the player row `(1, "a")`. -/
def dbSeed : DB := ⟨[], [⟨1, "a"⟩], [], [], 1, 2, 1, 1, []⟩

/-- A pathological store whose `players` table holds two rows with the
same name. -/
def dbDupNames : DB := ⟨[], [⟨1, "a"⟩, ⟨2, "a"⟩], [], [], 1, 3, 1, 1, []⟩

/-- A store with one user (with player), one library and three games, two
of which belong to library 1. -/
def dbLib : DB := ⟨[⟨1, "u", 1, "info"⟩], [⟨1, "a"⟩], [⟨1, 1⟩],
  [⟨1, 1, "g1", "p1", [1]⟩, ⟨2, 9, "gx", "px", []⟩, ⟨3, 1, "g2", "p2", [2]⟩],
  2, 2, 2, 4, []⟩

/-- A store with one fully linked user/library/game where the engine
errors on `SELECT ... FROM games WHERE id = 1`. -/
def dbLibFault : DB := ⟨[⟨1, "u", 1, "info"⟩], [⟨1, "a"⟩], [⟨1, 1⟩],
  [⟨1, 1, "g", "pr", []⟩], 2, 2, 2, 2, [Stmt.selectGameById 1]⟩

/-- An empty store whose engine errors on the three existence-check
queries. -/
def dbChecksFault : DB := ⟨[], [], [], [], 1, 1, 1, 1,
  [Stmt.selectPlayerByName "a", Stmt.selectUserByName "b",
   Stmt.selectPlayerByIdAndName 1 "a"]⟩

/-- The concrete user of the §8 scenario, declaring player `(1, "a")`. -/
def uAlice : User := ⟨0, "u", ⟨1, "a"⟩, "info"⟩

/-- The concrete game of the §8 scenario. -/
def gChess : Game := ⟨0, 1, "chess", "x", [57, 46, 57, 57]⟩

/-! ## Driver-level helper lemmas -/

lemma faulted_nil (db : DB) (hok : db.failing = []) (s : Stmt) :
    db.faulted s = false := by
  simp [DB.faulted, hok]

lemma query_not_faulted {α : Type} (db : DB) (s : Stmt) (rows : List α)
    (h : db.faulted s = false) : db.query s rows = (rows, none) := by
  simp [DB.query, h]

lemma query_faulted {α : Type} (db : DB) (s : Stmt) (rows : List α)
    (h : db.faulted s = true) : db.query s rows = ([], some (Err.engine s)) := by
  simp [DB.query, h]

/-- `DbPlayerRepo.Store` on a name that already has a row: the existence
check succeeds and nothing is written. -/
lemma playerStore_of_existing (p : Player) (db : DB)
    (hf : db.faulted (Stmt.selectPlayerByName p.Name) = false)
    (hne : db.players.filter (fun r => r.player_name == p.Name) ≠ []) :
    playerStore p db = (none, db) := by
  obtain ⟨r, rest, hl⟩ := List.exists_cons_of_ne_nil hne
  simp [playerStore, playerExisted, DB.query, hf, hl]

/-- `DbPlayerRepo.Store` on an absent name inserts one row under the
next serial id. -/
lemma playerStore_of_absent (p : Player) (db : DB)
    (hf1 : db.faulted (Stmt.selectPlayerByName p.Name) = false)
    (hf2 : db.faulted (Stmt.insertPlayer p.Name) = false)
    (hnil : db.players.filter (fun r => r.player_name == p.Name) = []) :
    playerStore p db = (none, { db with
      players := db.players ++ [⟨db.playersNextId, p.Name⟩],
      playersNextId := db.playersNextId + 1 }) := by
  simp [playerStore, playerExisted, DB.query, hf1, hf2, hnil]

/-- On a healthy engine `DbPlayerRepo.Store` never errors, touches only
the `players` table (appending at most one row), and leaves the other
tables and the fault oracle alone. -/
lemma playerStore_fields (p : Player) (db : DB) (hok : db.failing = []) :
    (playerStore p db).1 = none ∧
    (playerStore p db).2.users = db.users ∧
    (playerStore p db).2.failing = db.failing ∧
    ∃ tail, (playerStore p db).2.players = db.players ++ tail := by
  rcases hl : db.players.filter (fun r => r.player_name == p.Name) with _ | ⟨r, rest⟩
  · rw [playerStore_of_absent p db (faulted_nil db hok _) (faulted_nil db hok _) hl]
    exact ⟨rfl, rfl, rfl, [⟨db.playersNextId, p.Name⟩], rfl⟩
  · rw [playerStore_of_existing p db (faulted_nil db hok _) (by simp [hl])]
    exact ⟨rfl, rfl, rfl, [], by simp⟩

/-! ## Claim C1 -/

/-- Claim C1, as frozen, is false on the code: the validation error
`DbUserRepo.Store` raises is `fmt.Errorf("Player name does not match Id")`,
not the message "player name does not match id".  At the concrete input
`uAlice` over the empty store the returned error is the former and not
the latter. -/
theorem userStore_message_cex :
    (userStore uAlice dbEmpty).2.1 =
      some (Err.validation "Player name does not match Id") ∧
    (userStore uAlice dbEmpty).2.1 ≠
      some (Err.validation "player name does not match id") := by
  decide

/-- Claim C1 (amended): for every User `u` whose `Player.Name` and
`Player.Id` do not both match a stored Player row (and whose match query
the engine answers), `DbUserRepo.Store(u)` returns the validation error
"Player name does not match Id" and leaves the store — in particular the
`users` table — unchanged. -/
theorem userStore_rejects_unmatched_player (u : User) (db : DB)
    (hf : db.faulted (Stmt.selectPlayerByIdAndName u.Player.Id u.Player.Name) = false)
    (hnm : ∀ r ∈ db.players, ¬(r.id = u.Player.Id ∧ r.player_name = u.Player.Name)) :
    userStore u db = (0, some (Err.validation "Player name does not match Id"), db) := by
  have h0 : db.players.filter
      (fun r => r.id == u.Player.Id && r.player_name == u.Player.Name) = [] :=
    List.filter_eq_nil_iff.mpr (by intro r hr; simpa using hnm r hr)
  simp [userStore, nameMatchesId, DB.query, hf, h0]

/-- Witness for C1: the amended theorem applied to `uAlice` over the
empty store. -/
theorem userStore_rejects_unmatched_player_witness :
    userStore uAlice dbEmpty =
      (0, some (Err.validation "Player name does not match Id"), dbEmpty) :=
  userStore_rejects_unmatched_player uAlice dbEmpty (by decide) (by decide)

/-! ## Claim C3 -/

/-- Claim C3: for every id that matches no stored row (and deletes the
engine executes), `Remove` on User, Library and Game returns a nil error
and leaves the store unchanged: deleting a nonexistent entity is a
successful no-op. -/
theorem remove_nonexistent_noop (u : User) (l : Library) (g : Game) (db : DB)
    (hfu : db.faulted (Stmt.deleteUser u.Id) = false)
    (hfl : db.faulted (Stmt.deleteLibrary l.Id) = false)
    (hfg : db.faulted (Stmt.deleteGame g.Id) = false)
    (hu : ∀ r ∈ db.users, r.id ≠ u.Id)
    (hl : ∀ r ∈ db.libraries, r.id ≠ l.Id)
    (hg : ∀ r ∈ db.games, r.id ≠ g.Id) :
    userRemove u db = (none, db) ∧
    libraryRemove l db = (none, db) ∧
    gameRemove g db = (none, db) := by
  have h1 : db.users.filter (fun r => !(r.id == u.Id)) = db.users :=
    List.filter_eq_self.mpr (by intro r hr; simpa using hu r hr)
  have h2 : db.libraries.filter (fun r => !(r.id == l.Id)) = db.libraries :=
    List.filter_eq_self.mpr (by intro r hr; simpa using hl r hr)
  have h3 : db.games.filter (fun r => !(r.id == g.Id)) = db.games :=
    List.filter_eq_self.mpr (by intro r hr; simpa using hg r hr)
  refine ⟨?_, ?_, ?_⟩ <;>
    simp [userRemove, libraryRemove, gameRemove, hfu, hfl, hfg, h1, h2, h3]

/-- Witness for C3: removing entities with id 7 from `dbLib`, which has
no row with id 7 in any table. -/
theorem remove_nonexistent_noop_witness :
    userRemove ⟨7, "", playerZero, ""⟩ dbLib = (none, dbLib) ∧
    libraryRemove ⟨7, userZero, []⟩ dbLib = (none, dbLib) ∧
    gameRemove ⟨7, 0, "", "", []⟩ dbLib = (none, dbLib) :=
  remove_nonexistent_noop ⟨7, "", playerZero, ""⟩ ⟨7, userZero, []⟩
    ⟨7, 0, "", "", []⟩ dbLib (by decide) (by decide) (by decide)
    (by decide) (by decide) (by decide)

/-! ## Claim C4 -/

/-- Claim C4, as frozen, is false on the code: the single-row lookups do
not normalize the empty result to a distinct "no such entity" error
(`Err.notFound`, which nothing in the code constructs); at the concrete
id 1 over the empty store `DbPlayerRepo.FindById` returns the raw error
of scanning an empty cursor. -/
theorem findById_notFound_cex :
    (playerFindById 1 dbEmpty).2 = some Err.scanOnEmptyCursor ∧
    (playerFindById 1 dbEmpty).2 ≠ some Err.notFound := by
  decide

/-- Claim C4 (amended): for every id with no matching row (and a select
the engine answers), single-row `FindById` on Player, User and Game
returns the zero-value entity together with the raw scan-of-empty-cursor
error — the error `Scan` raises when `Next` was never true — rather than
a normalized "not found" error. -/
theorem findById_missing_row_scan_error (idp idu idg : Int) (db : DB)
    (hfp : db.faulted (Stmt.selectPlayerById idp) = false)
    (hfu : db.faulted (Stmt.selectUserById idu) = false)
    (hfg : db.faulted (Stmt.selectGameById idg) = false)
    (hp : ∀ r ∈ db.players, r.id ≠ idp)
    (hu : ∀ r ∈ db.users, r.id ≠ idu)
    (hg : ∀ r ∈ db.games, r.id ≠ idg) :
    playerFindById idp db = (playerZero, some Err.scanOnEmptyCursor) ∧
    userFindById idu db = (userZero, some Err.scanOnEmptyCursor) ∧
    gameFindById idg db = (gameZero, some Err.scanOnEmptyCursor) := by
  have hp' : db.players.filter (fun r => r.id == idp) = [] :=
    List.filter_eq_nil_iff.mpr (by intro r hr; simpa using hp r hr)
  have hu' : db.users.filter (fun r => r.id == idu) = [] :=
    List.filter_eq_nil_iff.mpr (by intro r hr; simpa using hu r hr)
  have hg' : db.games.filter (fun r => r.id == idg) = [] :=
    List.filter_eq_nil_iff.mpr (by intro r hr; simpa using hg r hr)
  refine ⟨?_, ?_, ?_⟩ <;>
    simp [playerFindById, userFindById, gameFindById, DB.query,
      hfp, hfu, hfg, hp', hu', hg']

/-- Witness for C4: looking up id 9 in `dbLib`, which stores no row with
id 9 in any table. -/
theorem findById_missing_row_scan_error_witness :
    playerFindById 9 dbLib = (playerZero, some Err.scanOnEmptyCursor) ∧
    userFindById 9 dbLib = (userZero, some Err.scanOnEmptyCursor) ∧
    gameFindById 9 dbLib = (gameZero, some Err.scanOnEmptyCursor) :=
  findById_missing_row_scan_error 9 9 9 dbLib (by decide) (by decide)
    (by decide) (by decide) (by decide) (by decide)

/-! ## Claim C10 -/

/-- Claim C10: `UserExisted`, `playerExisted` and `NameMatchesId` run
`row.Next()` (and the deferred `row.Close()`) on the cursor returned by
`Query` without guarding it behind the error check: when the engine
errors on the query, each still returns the boolean read off the
error-path cursor — the empty cursor the handler hands back, whose
`Next` is false — together with the error. -/
theorem existence_checks_use_error_cursor (n1 n2 n3 : String) (i : Int) (db : DB)
    (h1 : db.faulted (Stmt.selectUserByName n1) = true)
    (h2 : db.faulted (Stmt.selectPlayerByName n2) = true)
    (h3 : db.faulted (Stmt.selectPlayerByIdAndName i n3) = true) :
    userExisted n1 db = (false, some (Err.engine (Stmt.selectUserByName n1))) ∧
    playerExisted n2 db = (false, some (Err.engine (Stmt.selectPlayerByName n2))) ∧
    nameMatchesId n3 i db =
      (false, some (Err.engine (Stmt.selectPlayerByIdAndName i n3))) := by
  refine ⟨?_, ?_, ?_⟩ <;>
    simp [userExisted, playerExisted, nameMatchesId, DB.query, h1, h2, h3]

/-- Witness for C10: the three checks over `dbChecksFault`, whose engine
errors on exactly these three queries. -/
theorem existence_checks_use_error_cursor_witness :
    userExisted "b" dbChecksFault =
      (false, some (Err.engine (Stmt.selectUserByName "b"))) ∧
    playerExisted "a" dbChecksFault =
      (false, some (Err.engine (Stmt.selectPlayerByName "a"))) ∧
    nameMatchesId "a" 1 dbChecksFault =
      (false, some (Err.engine (Stmt.selectPlayerByIdAndName 1 "a"))) :=
  existence_checks_use_error_cursor "b" "a" "a" 1 dbChecksFault
    (by decide) (by decide) (by decide)

/-! ## Claim C2 -/

/-- Claim C2, as frozen, is false on the code for arbitrary store
states: over `dbDupNames`, which already holds two rows named "a",
`DbPlayerRepo.Store` of a player named "a" is a no-op both times, so two
calls leave two rows with that name, not exactly one. -/
theorem playerStore_idempotent_cex :
    ((playerStore ⟨3, "a"⟩ (playerStore ⟨3, "a"⟩ dbDupNames).2).2.players.filter
      (fun r => r.player_name == "a")).length ≠ 1 := by
  decide

/-- Claim C2 (amended): for every Player `p` and every store state in
which at most one row carries `p.Name` (the invariant Store itself
maintains; the engine answering the two statements involved), running
`DbPlayerRepo.Store(p)` twice leaves exactly one row with
`player_name = p.Name`, the second run changes nothing, and storing a
Player whose name already exists performs no insert and no update of the
existing row's attributes (the store is returned unchanged). -/
theorem playerStore_idempotent_by_name (p : Player) (db : DB)
    (hf1 : db.faulted (Stmt.selectPlayerByName p.Name) = false)
    (hf2 : db.faulted (Stmt.insertPlayer p.Name) = false)
    (hcount : (db.players.filter (fun r => r.player_name == p.Name)).length ≤ 1) :
    ((playerStore p (playerStore p db).2).2.players.filter
      (fun r => r.player_name == p.Name)).length = 1 ∧
    playerStore p (playerStore p db).2 = (none, (playerStore p db).2) ∧
    (db.players.filter (fun r => r.player_name == p.Name) ≠ [] →
      playerStore p db = (none, db)) := by
  rcases hl : db.players.filter (fun r => r.player_name == p.Name) with _ | ⟨r, rest⟩
  · have h1 := playerStore_of_absent p db hf1 hf2 hl
    have hfilter1 : ({ db with
        players := db.players ++ [⟨db.playersNextId, p.Name⟩],
        playersNextId := db.playersNextId + 1 } : DB).players.filter
          (fun r => r.player_name == p.Name) = [⟨db.playersNextId, p.Name⟩] := by
      simp [List.filter_append, hl]
    have h2 := playerStore_of_existing p { db with
        players := db.players ++ [⟨db.playersNextId, p.Name⟩],
        playersNextId := db.playersNextId + 1 } hf1 (by simp [hfilter1])
    rw [h1]
    dsimp only
    rw [h2]
    refine ⟨by simp [hfilter1], rfl, fun hne => absurd hl hne⟩
  · have hne : db.players.filter (fun r => r.player_name == p.Name) ≠ [] := by
      simp [hl]
    have h1 := playerStore_of_existing p db hf1 hne
    rw [h1]
    dsimp only
    rw [h1]
    refine ⟨?_, rfl, fun _ => rfl⟩
    rw [hl] at hcount ⊢
    simp only [List.length_cons] at hcount ⊢
    omega

/-- Witness for C2: storing `⟨3, "a"⟩` twice over the empty store. -/
theorem playerStore_idempotent_by_name_witness :
    ((playerStore ⟨3, "a"⟩ (playerStore ⟨3, "a"⟩ dbEmpty).2).2.players.filter
      (fun r => r.player_name == "a")).length = 1 ∧
    playerStore ⟨3, "a"⟩ (playerStore ⟨3, "a"⟩ dbEmpty).2 =
      (none, (playerStore ⟨3, "a"⟩ dbEmpty).2) ∧
    (dbEmpty.players.filter (fun r => r.player_name == "a") ≠ [] →
      playerStore ⟨3, "a"⟩ dbEmpty = (none, dbEmpty)) :=
  playerStore_idempotent_by_name ⟨3, "a"⟩ dbEmpty (by decide) (by decide) (by decide)

/-! ## Claim C7 -/

/-- Claim C7, as frozen, is false on the code: over `dbLibFault`, where
the engine errors on the per-game lookup, `DbLibraryRepo.FindById(1)`
returns a non-nil error together with the partially hydrated Library
(its Id and User already set), not the zero-value Library. -/
theorem entity_zero_on_error_cex :
    (libraryFindById 1 dbLibFault).2 ≠ none ∧
    (libraryFindById 1 dbLibFault).1 ≠ libraryZero := by
  decide

/-- Claim C7 (amended): for the entity-returning operations other than
`DbLibraryRepo.FindById` — `FindById` on Player, User and Game, and
`LoadInfo` — whenever the returned error is non-nil the returned value
is the zero value of its type.  `DbLibraryRepo.FindById` is the
exception: after the User was hydrated it returns the partially
populated Library together with the error of a failing games query or
game hydration. -/
theorem entity_zero_on_error (idp idu idg : Int) (uu : User) (db : DB) :
    ((playerFindById idp db).2 ≠ none → (playerFindById idp db).1 = playerZero) ∧
    ((userFindById idu db).2 ≠ none → (userFindById idu db).1 = userZero) ∧
    ((gameFindById idg db).2 ≠ none → (gameFindById idg db).1 = gameZero) ∧
    ((userLoadInfo uu db).2 ≠ none → (userLoadInfo uu db).1 = "") := by
  refine ⟨?_, ?_, ?_, ?_⟩
  · intro h
    by_cases hf : db.faulted (Stmt.selectPlayerById idp) = true
    · simp [playerFindById, DB.query, hf]
    · simp only [Bool.not_eq_true] at hf
      rcases hl : (db.players.filter (fun r => r.id == idp)).take 1 with _ | ⟨r, rest⟩
      · simp [playerFindById, DB.query, hf, hl]
      · exact absurd (by simp [playerFindById, DB.query, hf, hl]) h
  · intro h
    by_cases hf : db.faulted (Stmt.selectUserById idu) = true
    · simp [userFindById, DB.query, hf]
    · simp only [Bool.not_eq_true] at hf
      rcases hl : (db.users.filter (fun r => r.id == idu)).take 1 with _ | ⟨r, rest⟩
      · simp [userFindById, DB.query, hf, hl]
      · rcases hp : playerFindById r.player_id db with ⟨pv, pe⟩
        cases pe with
        | some e => simp [userFindById, DB.query, hf, hl, hp]
        | none => exact absurd (by simp [userFindById, DB.query, hf, hl, hp]) h
  · intro h
    by_cases hf : db.faulted (Stmt.selectGameById idg) = true
    · simp [gameFindById, DB.query, hf]
    · simp only [Bool.not_eq_true] at hf
      rcases hl : (db.games.filter (fun r => r.id == idg)).take 1 with _ | ⟨r, rest⟩
      · simp [gameFindById, DB.query, hf, hl]
      · exact absurd (by simp [gameFindById, DB.query, hf, hl]) h
  · intro h
    by_cases hf : db.faulted (Stmt.selectUserInfo uu.Id) = true
    · simp [userLoadInfo, DB.query, hf]
    · simp only [Bool.not_eq_true] at hf
      rcases hl : db.users.filter (fun r => r.id == uu.Id) with _ | ⟨r, rest⟩
      · simp [userLoadInfo, DB.query, hf, hl]
      · exact absurd (by simp [userLoadInfo, DB.query, hf, hl]) h

/-- Witness for C7 (amended): over the empty store every lookup errors,
and each of the four operations indeed hands back its zero value. -/
theorem entity_zero_on_error_witness :
    (playerFindById 1 dbEmpty).1 = playerZero ∧
    (userFindById 1 dbEmpty).1 = userZero ∧
    (gameFindById 1 dbEmpty).1 = gameZero ∧
    (userLoadInfo userZero dbEmpty).1 = "" := by
  have h := entity_zero_on_error 1 1 1 userZero dbEmpty
  exact ⟨h.1 (by decide), h.2.1 (by decide), h.2.2.1 (by decide),
    h.2.2.2 (by decide)⟩

/-! ## Claim C8 -/

/-- Claim C8: inside `DbUserRepo.Store`, whenever the `NameMatchesId`
check succeeds — a players row with exactly that id and name exists —
`playerExisted` is true for that name, so the trailing
`DbPlayerRepo.Store(user.Player)` performs no insert: the `players`
table after `Store` is exactly the one before. -/
theorem userStore_trailing_store_noop (u : User) (db : DB)
    (hm : (nameMatchesId u.Player.Name u.Player.Id db).1 = true)
    (hf : db.faulted (Stmt.selectPlayerByName u.Player.Name) = false) :
    playerExisted u.Player.Name db = (true, none) ∧
    (userStore u db).2.2.players = db.players := by
  by_cases hfm : db.faulted (Stmt.selectPlayerByIdAndName u.Player.Id u.Player.Name) = true
  · exact absurd hm (by simp [nameMatchesId, DB.query, hfm])
  simp only [Bool.not_eq_true] at hfm
  have hne : db.players.filter
      (fun r => r.id == u.Player.Id && r.player_name == u.Player.Name) ≠ [] := by
    intro h0
    exact absurd hm (by simp [nameMatchesId, DB.query, hfm, h0])
  obtain ⟨r, rest, hl⟩ := List.exists_cons_of_ne_nil hne
  have hrmem : r ∈ db.players ∧
      (r.id == u.Player.Id && r.player_name == u.Player.Name) = true :=
    List.mem_filter.mp (by rw [hl]; exact List.mem_cons_self r rest)
  have hrname : r.player_name = u.Player.Name := by
    have h2 := hrmem.2
    simp only [Bool.and_eq_true, beq_iff_eq] at h2
    exact h2.2
  have hnameF : db.players.filter (fun x => x.player_name == u.Player.Name) ≠ [] := by
    have hrin : r ∈ db.players.filter (fun x => x.player_name == u.Player.Name) :=
      List.mem_filter.mpr ⟨hrmem.1, by simp [hrname]⟩
    intro h0
    rw [h0] at hrin
    cases hrin
  obtain ⟨r2, rest2, hl2⟩ := List.exists_cons_of_ne_nil hnameF
  have hpe : playerExisted u.Player.Name db = (true, none) := by
    simp [playerExisted, DB.query, hf, hl2]
  refine ⟨hpe, ?_⟩
  have hmfull : nameMatchesId u.Player.Name u.Player.Id db = (true, none) := by
    simp [nameMatchesId, DB.query, hfm, hl]
  by_cases hfi : db.faulted (Stmt.insertUser u.Name u.Player.Id u.PersonalInfo) = true
  · simp [userStore, hmfull, hfi]
  · simp only [Bool.not_eq_true] at hfi
    have hst := playerStore_of_existing u.Player
      { db with
        users := db.users ++ [⟨db.usersNextId, u.Name, u.Player.Id, u.PersonalInfo⟩],
        usersNextId := db.usersNextId + 1 } hf hnameF
    simp [userStore, hmfull, hfi, hst]

/-- Witness for C8: storing `uAlice` over `dbSeed`, whose players table
holds exactly the matching row `(1, "a")`. -/
theorem userStore_trailing_store_noop_witness :
    playerExisted "a" dbSeed = (true, none) ∧
    (userStore uAlice dbSeed).2.2.players = dbSeed.players :=
  userStore_trailing_store_noop uAlice dbSeed (by decide) (by decide)

/-! ## Claim C9 -/

/-- Claim C9: `DbLibraryRepo.FindById` discards the error of scanning
`user_id` from the library row; for every id with no matching
`libraries` row (and a select the engine answers), it does not report
the missing Library but continues with the zero value `userId = 0`:
the result is exactly what the remainder of the code computes for user
id 0, and in particular when that nested User lookup fails the whole
call returns its error (with the zero Library), never a
missing-library error. -/
theorem libraryFindById_ignores_missing_row (id : Int) (db : DB)
    (hf : db.faulted (Stmt.selectLibraryUserId id) = false)
    (hno : ∀ r ∈ db.libraries, r.id ≠ id) :
    libraryFindById id db = libraryFindWithUser id 0 db ∧
    (∀ e, (userFindById 0 db).2 = some e →
      libraryFindById id db = (libraryZero, some e)) := by
  have h0 : db.libraries.filter (fun r => r.id == id) = [] :=
    List.filter_eq_nil_iff.mpr (by intro r hr; simpa using hno r hr)
  have h1 : libraryFindById id db = libraryFindWithUser id 0 db := by
    simp [libraryFindById, DB.query, hf, h0]
  refine ⟨h1, fun e he => ?_⟩
  rw [h1]
  simp [libraryFindWithUser, he]

/-- Witness for C9: looking up library id 5 in `dbLib`, which has no
such row and no user with id 0: the nested lookup's empty-cursor scan
error comes back. -/
theorem libraryFindById_ignores_missing_row_witness :
    libraryFindById 5 dbLib = libraryFindWithUser 5 0 dbLib ∧
    libraryFindById 5 dbLib = (libraryZero, some Err.scanOnEmptyCursor) := by
  have h := libraryFindById_ignores_missing_row 5 dbLib (by decide) (by decide)
  exact ⟨h.1, h.2 Err.scanOnEmptyCursor (by decide)⟩

/-! ## Claim C5 -/

/-- With pairwise distinct game ids, filtering the games table by a
stored row's id yields exactly that row. -/
lemma filter_id_singleton (l : List GameRow) (hn : (l.map GameRow.id).Nodup)
    (g : GameRow) (hg : g ∈ l) : l.filter (fun r => r.id == g.id) = [g] := by
  induction l with
  | nil => cases hg
  | cons a t ih =>
    rw [List.map_cons, List.nodup_cons] at hn
    rcases List.mem_cons.mp hg with hga | hgt
    · subst hga
      have ht : t.filter (fun r => r.id == g.id) = [] := by
        refine List.filter_eq_nil_iff.mpr (fun r hr hre => ?_)
        rw [beq_iff_eq] at hre
        exact hn.1 (hre ▸ List.mem_map_of_mem GameRow.id hr)
      simp [List.filter_cons, ht]
    · have hae : (a.id == g.id) = false := by
        rw [beq_eq_false_iff_ne]
        intro he
        exact hn.1 (he ▸ List.mem_map_of_mem GameRow.id hgt)
      simp [List.filter_cons, hae, ih hn.2 hgt]

/-- Running the games-hydration loop of `DbLibraryRepo.FindById` over
the ids of stored rows (healthy engine, distinct game ids) appends
exactly those rows' entity views, in cursor order, with a nil error. -/
lemma gamesLoop_hydrates (db : DB) (hok : db.failing = [])
    (hn : (db.games.map GameRow.id).Nodup) (l : List GameRow)
    (hsub : ∀ g ∈ l, g ∈ db.games) (lib : Library) :
    libraryGamesLoop db lib (l.map GameRow.id) =
      ({ lib with Games := lib.Games ++ l.map GameRow.toGame }, none) := by
  induction l generalizing lib with
  | nil => simp [libraryGamesLoop]
  | cons g t ih =>
    have hfind : gameFindById g.id db = (GameRow.toGame g, none) := by
      have hfil := filter_id_singleton db.games hn g (hsub g (List.mem_cons_self g t))
      simp [gameFindById, DB.query, faulted_nil db hok, hfil, GameRow.toGame]
    simp only [List.map_cons, libraryGamesLoop, hfind]
    rw [ih (fun x hx => hsub x (List.mem_cons_of_mem g hx))]
    simp

/-- Claim C5: for every stored Library (first matching row `lrow`) whose
User hydration succeeds, over a healthy store with pairwise distinct
game ids, `DbLibraryRepo.FindById` returns the Library's Games exactly
in the order the games-by-`library_id` cursor yields them — the rows of
`games` with that `library_id`, in table (insertion) order — and a nil
error; in particular a Library with no Games comes back with an empty
Games sequence and a nil error. -/
theorem libraryFindById_games_cursor_order (id : Int) (db : DB) (lrow : LibraryRow)
    (hok : db.failing = [])
    (hlib : (db.libraries.filter (fun r => r.id == id)).head? = some lrow)
    (huser : (userFindById lrow.user_id db).2 = none)
    (hn : (db.games.map GameRow.id).Nodup) :
    libraryFindById id db =
      (⟨id, (userFindById lrow.user_id db).1,
        (db.games.filter (fun r => r.library_id == id)).map GameRow.toGame⟩, none) := by
  obtain ⟨x, rest, hx⟩ : ∃ x rest,
      db.libraries.filter (fun r => r.id == id) = x :: rest := by
    rcases h : db.libraries.filter (fun r => r.id == id) with _ | ⟨x, rest⟩
    · rw [h] at hlib; cases hlib
    · exact ⟨x, rest, h⟩
  have hxl : x = lrow := by
    rw [hx] at hlib
    simpa using hlib
  subst hxl
  have hfw : libraryFindById id db = libraryFindWithUser id x.user_id db := by
    simp [libraryFindById, DB.query, faulted_nil db hok, hx]
  rw [hfw]
  rcases hu : userFindById x.user_id db with ⟨usr, ue⟩
  rw [hu] at huser
  have hue : ue = none := huser
  subst hue
  have hloop := gamesLoop_hydrates db hok hn
    (db.games.filter (fun r => r.library_id == id))
    (fun g hg => List.mem_of_mem_filter hg) ⟨id, usr, []⟩
  simp only [libraryFindWithUser, hu, query_not_faulted _ _ _ (faulted_nil db hok _)]
  rw [hloop]
  simp

/-- Witness for C5: library 1 of `dbLib` holds games 1 and 3, in that
order; game 2 belongs to another library and is skipped. -/
theorem libraryFindById_games_cursor_order_witness :
    libraryFindById 1 dbLib =
      (⟨1, (userFindById 1 dbLib).1,
        (dbLib.games.filter (fun r => r.library_id == 1)).map GameRow.toGame⟩, none) :=
  libraryFindById_games_cursor_order 1 dbLib ⟨1, 1⟩ rfl (by decide) (by decide) (by decide)

/-! ## Claim C6 -/

/-- Claim C6: round-trip of the scalar fields over a healthy store.
Under the invariants the layer maintains — the serial counters are
fresh with respect to the stored rows, the stored Player name is new
(otherwise nothing is written), and the User's declared Player matches a
stored row (otherwise `Store` rejects it) — `FindById` applied to the id
under which the entity was stored returns an entity whose scalar fields
equal the stored ones exactly: `Player.Name`; `User.Name` and
`User.PersonalInfo`; `Game.Name`, `Game.Producer` and `Game.Value`
byte-for-byte. -/
theorem store_find_roundtrip (p : Player) (u : User) (g : Game) (db : DB)
    (hok : db.failing = [])
    (hpname : ∀ r ∈ db.players, r.player_name ≠ p.Name)
    (hpfresh : ∀ r ∈ db.players, r.id ≠ db.playersNextId)
    (hmatch : db.players.filter
      (fun r => r.id == u.Player.Id && r.player_name == u.Player.Name) ≠ [])
    (hufresh : ∀ r ∈ db.users, r.id ≠ db.usersNextId)
    (hgfresh : ∀ r ∈ db.games, r.id ≠ db.gamesNextId) :
    ((playerStore p db).1 = none ∧
      playerFindById db.playersNextId (playerStore p db).2 =
        (⟨db.playersNextId, p.Name⟩, none)) ∧
    ((userStore u db).1 = db.usersNextId ∧
      (userStore u db).2.1 = none ∧
      (userFindById db.usersNextId (userStore u db).2.2).2 = none ∧
      (userFindById db.usersNextId (userStore u db).2.2).1.Name = u.Name ∧
      (userFindById db.usersNextId (userStore u db).2.2).1.PersonalInfo =
        u.PersonalInfo) ∧
    ((gameStore g db).1 = db.gamesNextId ∧
      (gameStore g db).2.1 = none ∧
      gameFindById db.gamesNextId (gameStore g db).2.2 =
        (⟨db.gamesNextId, g.LibraryId, g.Name, g.Producer, g.Value⟩, none)) := by
  -- Part A: Player round trip.
  have hpnil : db.players.filter (fun r => r.player_name == p.Name) = [] :=
    List.filter_eq_nil_iff.mpr (fun r hr => by simpa using hpname r hr)
  have hA := playerStore_of_absent p db (faulted_nil db hok _) (faulted_nil db hok _) hpnil
  have hpidnil : db.players.filter (fun r => r.id == db.playersNextId) = [] :=
    List.filter_eq_nil_iff.mpr (fun r hr => by simpa using hpfresh r hr)
  have hAfind : playerFindById db.playersNextId (playerStore p db).2 =
      (⟨db.playersNextId, p.Name⟩, none) := by
    rw [hA]
    simp [playerFindById, DB.query, DB.faulted, hok, List.filter_append, hpidnil]
  -- Part B: User round trip.
  obtain ⟨mr, mrest, hml⟩ := List.exists_cons_of_ne_nil hmatch
  have hmfull : nameMatchesId u.Player.Name u.Player.Id db = (true, none) := by
    simp [nameMatchesId, DB.query, faulted_nil db hok _, hml]
  have hBstore : userStore u db = (db.usersNextId,
      playerStore u.Player { db with
        users := db.users ++ [⟨db.usersNextId, u.Name, u.Player.Id, u.PersonalInfo⟩],
        usersNextId := db.usersNextId + 1 }) := by
    simp [userStore, hmfull, DB.faulted, hok]
  obtain ⟨hpe, hpu, hpf, tail, hpt⟩ := playerStore_fields u.Player
    { db with
      users := db.users ++ [⟨db.usersNextId, u.Name, u.Player.Id, u.PersonalInfo⟩],
      usersNextId := db.usersNextId + 1 } hok
  have hok2 : (playerStore u.Player { db with
      users := db.users ++ [⟨db.usersNextId, u.Name, u.Player.Id, u.PersonalInfo⟩],
      usersNextId := db.usersNextId + 1 }).2.failing = [] := hpf.trans hok
  have hunil : db.users.filter (fun r => r.id == db.usersNextId) = [] :=
    List.filter_eq_nil_iff.mpr (fun r hr => by simpa using hufresh r hr)
  have hufilter : (playerStore u.Player { db with
      users := db.users ++ [⟨db.usersNextId, u.Name, u.Player.Id, u.PersonalInfo⟩],
      usersNextId := db.usersNextId + 1 }).2.users.filter
        (fun r => r.id == db.usersNextId) =
      [⟨db.usersNextId, u.Name, u.Player.Id, u.PersonalInfo⟩] := by
    rw [hpu]
    dsimp only
    rw [List.filter_append, hunil]
    simp
  have hmrfil : mr ∈ db.players.filter
      (fun r => r.id == u.Player.Id && r.player_name == u.Player.Name) := by
    rw [hml]
    exact List.mem_cons_self mr mrest
  obtain ⟨hmrP, hmrcond⟩ := List.mem_filter.mp hmrfil
  have hmrid : mr.id = u.Player.Id := by
    simp only [Bool.and_eq_true, beq_iff_eq] at hmrcond
    exact hmrcond.1
  have hidne : db.players.filter (fun r => r.id == u.Player.Id) ≠ [] := by
    have hin : mr ∈ db.players.filter (fun r => r.id == u.Player.Id) :=
      List.mem_filter.mpr ⟨hmrP, by simp [hmrid]⟩
    intro h0
    rw [h0] at hin
    cases hin
  obtain ⟨y, ys, hyl⟩ := List.exists_cons_of_ne_nil hidne
  have hpfilter2 : (playerStore u.Player { db with
      users := db.users ++ [⟨db.usersNextId, u.Name, u.Player.Id, u.PersonalInfo⟩],
      usersNextId := db.usersNextId + 1 }).2.players.filter
        (fun r => r.id == u.Player.Id) =
      y :: (ys ++ tail.filter (fun r => r.id == u.Player.Id)) := by
    rw [hpt]
    dsimp only
    rw [List.filter_append, hyl, List.cons_append]
  have hplayer : playerFindById u.Player.Id (playerStore u.Player { db with
      users := db.users ++ [⟨db.usersNextId, u.Name, u.Player.Id, u.PersonalInfo⟩],
      usersNextId := db.usersNextId + 1 }).2 =
      (⟨u.Player.Id, y.player_name⟩, none) := by
    simp [playerFindById, DB.query, DB.faulted, hok2, hpfilter2]
  have hBfind : userFindById db.usersNextId (playerStore u.Player { db with
      users := db.users ++ [⟨db.usersNextId, u.Name, u.Player.Id, u.PersonalInfo⟩],
      usersNextId := db.usersNextId + 1 }).2 =
      (⟨db.usersNextId, u.Name, ⟨u.Player.Id, y.player_name⟩, u.PersonalInfo⟩, none) := by
    simp [userFindById, DB.query, DB.faulted, hok2, hufilter, hplayer]
  -- Part C: Game round trip.
  have hCstore : gameStore g db = (db.gamesNextId, none, { db with
      games := db.games ++ [⟨db.gamesNextId, g.LibraryId, g.Name, g.Producer, g.Value⟩],
      gamesNextId := db.gamesNextId + 1 }) := by
    simp [gameStore, DB.faulted, hok]
  have hgnil : db.games.filter (fun r => r.id == db.gamesNextId) = [] :=
    List.filter_eq_nil_iff.mpr (fun r hr => by simpa using hgfresh r hr)
  have hCfind : gameFindById db.gamesNextId (gameStore g db).2.2 =
      (⟨db.gamesNextId, g.LibraryId, g.Name, g.Producer, g.Value⟩, none) := by
    rw [hCstore]
    simp [gameFindById, DB.query, DB.faulted, hok, List.filter_append, hgnil]
  refine ⟨⟨?_, hAfind⟩, ⟨?_, ?_, ?_, ?_, ?_⟩, ⟨?_, ?_, hCfind⟩⟩
  · rw [hA]
  · rw [hBstore]
  · rw [hBstore]
    dsimp only
    exact hpe
  · rw [hBstore]
    dsimp only
    rw [hBfind]
  · rw [hBstore]
    dsimp only
    rw [hBfind]
  · rw [hBstore]
    dsimp only
    rw [hBfind]
  · rw [hCstore]
  · rw [hCstore]

/-- Witness for C6: player `⟨5, "b"⟩`, user `uAlice` (declaring the
seeded player `(1, "a")`) and game `gChess` stored over `dbSeed`. -/
theorem store_find_roundtrip_witness :
    ((playerStore ⟨5, "b"⟩ dbSeed).1 = none ∧
      playerFindById dbSeed.playersNextId (playerStore ⟨5, "b"⟩ dbSeed).2 =
        (⟨dbSeed.playersNextId, "b"⟩, none)) ∧
    ((userStore uAlice dbSeed).1 = dbSeed.usersNextId ∧
      (userStore uAlice dbSeed).2.1 = none ∧
      (userFindById dbSeed.usersNextId (userStore uAlice dbSeed).2.2).2 = none ∧
      (userFindById dbSeed.usersNextId (userStore uAlice dbSeed).2.2).1.Name =
        uAlice.Name ∧
      (userFindById dbSeed.usersNextId
        (userStore uAlice dbSeed).2.2).1.PersonalInfo = uAlice.PersonalInfo) ∧
    ((gameStore gChess dbSeed).1 = dbSeed.gamesNextId ∧
      (gameStore gChess dbSeed).2.1 = none ∧
      gameFindById dbSeed.gamesNextId (gameStore gChess dbSeed).2.2 =
        (⟨dbSeed.gamesNextId, gChess.LibraryId, gChess.Name, gChess.Producer,
          gChess.Value⟩, none)) :=
  store_find_roundtrip ⟨5, "b"⟩ uAlice gChess dbSeed rfl (by decide) (by decide)
    (by decide) (by decide) (by decide)

end GameTracker
